import Mathlib

/-!
Verification of the QZKP repository's commitment/proof protocol core.

The definitions below are a shallow embedding of the Python sources:
  * `comprehensive_qzkp_real_hardware.py`   (SecureQuantumStateVector, SecureQuantumZKP)
  * `tests/security/ultra_secure_qzkp_256bit.py`  (UltraSecure* variants)
  * `tests/security/bytes_to_quantum_state_test.py` (BytesToQuantumStateConverter, UltraSecureBytesQZKP)

Machine integers are modelled as `Nat` with explicit reduction modulo `2^32`
where the hash arithmetic overflows; Python byte strings are `List Nat`
(each element `< 256`); Python dicts are insertion-ordered association
lists; fallible Python code (raising) returns `Except`.
-/

namespace QZKP

/-! ## SHA-256 (hashlib.sha256), executable, over byte lists -/

/-- Reduce modulo `2 ^ 32`: the 32-bit word arithmetic of SHA-256. -/
def w32 (x : Nat) : Nat := x % 4294967296

/-- Rotate a 32-bit word right by `n`. -/
def rotr (n x : Nat) : Nat := w32 ((x >>> n) ||| (x <<< (32 - n)))

/-- Upper-case sigma-0 round function of SHA-256. -/
def bigSigma0 (x : Nat) : Nat := rotr 2 x ^^^ rotr 13 x ^^^ rotr 22 x

/-- Upper-case sigma-1 round function of SHA-256. -/
def bigSigma1 (x : Nat) : Nat := rotr 6 x ^^^ rotr 11 x ^^^ rotr 25 x

/-- Lower-case sigma-0 message-schedule function of SHA-256. -/
def smallSigma0 (x : Nat) : Nat := rotr 7 x ^^^ rotr 18 x ^^^ (x >>> 3)

/-- Lower-case sigma-1 message-schedule function of SHA-256. -/
def smallSigma1 (x : Nat) : Nat := rotr 17 x ^^^ rotr 19 x ^^^ (x >>> 10)

/-- Choice function `Ch(x,y,z)` of SHA-256 (`not x` is `x xor 0xffffffff`). -/
def chF (x y z : Nat) : Nat := (x &&& y) ^^^ ((x ^^^ 4294967295) &&& z)

/-- Majority function `Maj(x,y,z)` of SHA-256. -/
def majF (x y z : Nat) : Nat := (x &&& y) ^^^ (x &&& z) ^^^ (y &&& z)

/-- Round constants of SHA-256 (FIPS 180-4, written in decimal). -/
def K256 : List Nat :=
  [1116352408, 1899447441, 3049323471, 3921009573, 961987163,
   1508970993, 2453635748, 2870763221, 3624381080, 310598401,
   607225278, 1426881987, 1925078388, 2162078206, 2614888103,
   3248222580, 3835390401, 4022224774, 264347078, 604807628,
   770255983, 1249150122, 1555081692, 1996064986, 2554220882,
   2821834349, 2952996808, 3210313671, 3336571891, 3584528711,
   113926993, 338241895, 666307205, 773529912, 1294757372,
   1396182291, 1695183700, 1986661051, 2177026350, 2456956037,
   2730485921, 2820302411, 3259730800, 3345764771, 3516065817,
   3600352804, 4094571909, 275423344, 430227734, 506948616,
   659060556, 883997877, 958139571, 1322822218, 1537002063,
   1747873779, 1955562222, 2024104815, 2227730452, 2361852424,
   2428436474, 2756734187, 3204031479, 3329325298]

/-- Initial hash state of SHA-256 (FIPS 180-4, written in decimal). -/
def H256init : List Nat :=
  [1779033703, 3144134277, 1013904242, 2773480762, 1359893119,
   2600822924, 528734635, 1541459225]

/-- Big-endian bytes (8 of them) of the 64-bit message bit length. -/
def lenBytes64 (n : Nat) : List Nat :=
  (List.range 8).map fun i => (n >>> (8 * (7 - i))) % 256

/-- Pad a byte message to a multiple of 64 bytes, SHA-256 style. -/
def padMessage (msg : List Nat) : List Nat :=
  let L := msg.length
  let padZeros := (119 - L % 64) % 64
  msg ++ [128] ++ List.replicate padZeros 0 ++ lenBytes64 (8 * L)

/-- Split a list into chunks of 64, one chunk per unit of fuel. -/
def chunksGo : Nat → List Nat → List (List Nat)
  | 0, _ => []
  | n + 1, l => l.take 64 :: chunksGo n (l.drop 64)

/-- Split a padded message into its 64-byte blocks. -/
def chunks64 (l : List Nat) : List (List Nat) := chunksGo (l.length / 64) l

/-- The first 16 message-schedule words of a block, big-endian. -/
def blockWords (b : List Nat) : List Nat :=
  (List.range 16).map fun i =>
    (b.getD (4 * i) 0 <<< 24) ||| (b.getD (4 * i + 1) 0 <<< 16) |||
    (b.getD (4 * i + 2) 0 <<< 8) ||| b.getD (4 * i + 3) 0

/-- Extend 16 message-schedule words to the full 64. -/
def extendWords (ws : List Nat) : List Nat :=
  (List.range 48).foldl
    (fun ws _ =>
      ws ++ [w32 (smallSigma1 (ws.getD (ws.length - 2) 0) + ws.getD (ws.length - 7) 0 +
                  smallSigma0 (ws.getD (ws.length - 15) 0) + ws.getD (ws.length - 16) 0)])
    ws

/-- One round of the SHA-256 compression function on the 8-word state. -/
def compressRound (st : List Nat) (kw : Nat × Nat) : List Nat :=
  match st with
  | [a, b, c, d, e, f, g, h] =>
    let t1 := w32 (h + bigSigma1 e + chF e f g + kw.1 + kw.2)
    let t2 := w32 (bigSigma0 a + majF a b c)
    [w32 (t1 + t2), a, b, c, w32 (d + t1), e, f, g]
  | st => st

/-- Compress one 64-byte block into the running 8-word hash state. -/
def compressBlock (h : List Nat) (block : List Nat) : List Nat :=
  let ws := extendWords (blockWords block)
  let st := (K256.zip ws).foldl compressRound h
  (h.zip st).map fun p => w32 (p.1 + p.2)

/-- The SHA-256 digest of a byte message, as 8 32-bit words. -/
def sha256words (msg : List Nat) : List Nat :=
  (chunks64 (padMessage msg)).foldl compressBlock H256init

/-- The SHA-256 digest of a byte message, as 32 bytes (`.digest()`). -/
def sha256bytes (msg : List Nat) : List Nat :=
  (sha256words msg).foldr
    (fun w acc => ((List.range 4).map fun i => (w >>> (8 * (3 - i))) % 256) ++ acc) []

/-- Lower-case hex digit for a value below 16. -/
def hexDigit (n : Nat) : Char :=
  if n < 10 then Char.ofNat (48 + n) else Char.ofNat (87 + n)

/-- Lower-case 8-hex-character rendering of a 32-bit word. -/
def word8hex (w : Nat) : String :=
  String.mk ((List.range 8).map fun i => hexDigit ((w >>> (4 * (7 - i))) % 16))

/-- The SHA-256 digest of a byte message as 64 lower-case hex characters
(`.hexdigest()`). -/
def sha256hex (msg : List Nat) : String :=
  String.join ((sha256words msg).map word8hex)

/-- Byte sequence of an ASCII string (`.encode()`; exact UTF-8 for the
ASCII-only strings this code hashes). -/
def strBytes (s : String) : List Nat := s.data.map Char.toNat

/-! ## Python values and insertion-ordered dicts -/

mutual
/-- Model of a Python value as it occurs in the proof/commitment records:
strings, ints, floats (as exact rationals: every float these records hold is
integral — bounds, dimensions, shot counts), bools, and nested dicts. -/
inductive Val where
  | str : String → Val
  | int : Int → Val
  | float : ℚ → Val
  | bool : Bool → Val
  | dict : Fields → Val
/-- Model of a Python dict: key/value pairs in insertion order, keys unique. -/
inductive Fields where
  | nil : Fields
  | cons : String → Val → Fields → Fields
end

deriving instance DecidableEq for Val, Fields

/-- Lookup of a key (`d.get(k)`): the first binding, else `none`. -/
def Fields.lookup : Fields → String → Option Val
  | .nil, _ => none
  | .cons k v rest, key => if k = key then some v else rest.lookup key

/-- Key membership test of a dict. -/
def Fields.hasKey (fs : Fields) (key : String) : Bool := (fs.lookup key).isSome

/-- Removal of the first binding of a key (what `d.pop(k)` leaves behind). -/
def Fields.erase : Fields → String → Fields
  | .nil, _ => .nil
  | .cons k v rest, key => if k = key then rest else .cons k v (rest.erase key)

/-- Appending a fresh binding at the end: `d[k] = v` for a key not yet
present, which is how `proof["signature"] = ...` extends the record. -/
def Fields.append : Fields → String → Val → Fields
  | .nil, key, v => .cons key v .nil
  | .cons k w rest, key, v => .cons k w (rest.append key v)

/-- Python `d[k]`: the value, or a KeyError. -/
def Fields.getItem (fs : Fields) (k : String) : Except String Val :=
  match fs.lookup k with
  | some v => .ok v
  | none => .error ("KeyError: " ++ k)

/-- Python `d.pop(k)` without default: KeyError when absent, else the value
together with the dict as mutated by the pop. -/
def Fields.pop (fs : Fields) (k : String) : Except String (Val × Fields) :=
  match fs.lookup k with
  | some v => .ok (v, fs.erase k)
  | none => .error ("KeyError: " ++ k)

/-- Python `d.pop(k, default)`: never raises. -/
def Fields.popD (fs : Fields) (k : String) (d : Val) : Val × Fields :=
  match fs.lookup k with
  | some v => (v, fs.erase k)
  | none => (d, fs)

/-- Python attribute call `.get` demands a dict (else AttributeError). -/
def asDict : Val → Except String Fields
  | .dict fs => .ok fs
  | _ => .error "AttributeError: get"

/-- Numeric view of a Python value (Python compares int/float/bool
numerically across types; `True == 1`). -/
def numVal : Val → Option ℚ
  | .int n => some (n : ℚ)
  | .float q => some q
  | .bool b => some (if b then 1 else 0)
  | _ => none

/-- Python `==` on the values occurring here: numeric comparison across
int/float/bool, structural comparison otherwise. -/
def pyEq (a b : Val) : Bool :=
  match numVal a, numVal b with
  | some x, some y => decide (x = y)
  | _, _ => decide (a = b)

/-- Python `d.get(k) != x` support: `None` compares unequal to every value
used here. -/
def pyEqOpt : Option Val → Val → Bool
  | none, _ => false
  | some v, x => pyEq v x

/-- Python truthiness of a value (`if not signature: ...`). -/
def truthy : Val → Bool
  | .str s => decide (s ≠ "")
  | .int n => decide (n ≠ 0)
  | .float q => decide (q ≠ 0)
  | .bool b => b
  | .dict fs => decide (fs ≠ .nil)

/-- Python truthiness of an optional value (`None` is falsy). -/
def truthyOpt : Option Val → Bool
  | none => false
  | some v => truthy v

/-- Python `v < 0` used on the bound fields: numeric comparison, TypeError on
non-numeric values. -/
def pyLtZero (v : Val) : Except String Bool :=
  match numVal v with
  | some q => .ok (decide (q < 0))
  | none => .error "TypeError: unorderable types"

/-! ## Canonical JSON serialization (json.dumps with sort_keys=True) -/

/-- Escape of one character inside a JSON string literal; the identity for
the plain ASCII characters these records contain. -/
def jsonEscapeChar (c : Char) : String :=
  if c == '"' then "\\\"" else if c == '\\' then "\\\\" else String.singleton c

/-- Escape of a string for a JSON string literal. -/
def jsonEscape (s : String) : String :=
  String.join (s.data.map jsonEscapeChar)

/-- Python repr of a float as json.dumps renders it; exact on the integral
floats these records hold (the non-integral branch is never exercised by any
record modelled here). -/
def floatRepr (q : ℚ) : String :=
  if q.den = 1 then toString q.num ++ ".0"
  else toString q.num ++ "e-" ++ toString q.den

/-- Lexicographic order on character code points, which is how Python
compares (and hence sorts) the key strings. -/
def charsLt : List Char → List Char → Bool
  | [], [] => false
  | [], _ :: _ => true
  | _ :: _, [] => false
  | c :: cs, d :: ds =>
    if c.toNat < d.toNat then true else if d.toNat < c.toNat then false else charsLt cs ds

/-- String order by code points (Python `<` on str). -/
def strLt (a b : String) : Bool := charsLt a.data b.data

/-- Insertion of a rendered field into a key-sorted rendered field list. -/
def insertSorted (p : String × String) : List (String × String) → List (String × String)
  | [] => [p]
  | q :: rest => if strLt p.1 q.1 then p :: q :: rest else q :: insertSorted p rest

/-- Sorting of rendered fields by raw key, as `sort_keys=True` does. -/
def sortRendered (l : List (String × String)) : List (String × String) :=
  l.foldr insertSorted []

/-- Joining of rendered fields with the default ", " and ": " separators. -/
def joinFields : List (String × String) → String
  | [] => ""
  | [(k, v)] => "\"" ++ jsonEscape k ++ "\": " ++ v
  | (k, v) :: rest => "\"" ++ jsonEscape k ++ "\": " ++ v ++ ", " ++ joinFields rest

mutual
/-- Python `json.dumps(value, sort_keys=True)`. -/
def dumpVal : Val → String
  | .str s => "\"" ++ jsonEscape s ++ "\""
  | .int n => toString n
  | .float q => floatRepr q
  | .bool b => if b then "true" else "false"
  | .dict fs => "\x7b" ++ joinFields (sortRendered (renderFields fs)) ++ "\x7d"
/-- Rendering of each dict value, keeping the raw key for sorting. -/
def renderFields : Fields → List (String × String)
  | .nil => []
  | .cons k v rest => (k, dumpVal v) :: renderFields rest
end

/-- Python `json.dumps(d, sort_keys=True).encode()` for a dict. -/
def dumpsBytes (fs : Fields) : List Nat := strBytes (dumpVal (.dict fs))

/-! ## Signers (`_sign_secure_proof`, `_sign_ultra_secure_proof`,
`_sign_bytes_proof`) -/

/-- Embeds `SecureQuantumZKP._sign_secure_proof` (lines 242-247): the SHA-256
hex digest over the canonical JSON of the proof followed by the canonical
JSON of the commitment.  No randomness enters the hash. -/
def signSecure (proof commitment : Fields) : String :=
  sha256hex (dumpsBytes proof ++ dumpsBytes commitment)

/-- Embeds `UltraSecureQuantumZKP._sign_ultra_secure_proof` (lines 270-277):
the hash additionally absorbs `str(self.security_level)` and a fresh
`os.urandom(32)` draw, passed here explicitly as `nonce`. -/
def signUltra (proof commitment : Fields) (securityLevel : Int) (nonce : List Nat) : String :=
  sha256hex (dumpsBytes proof ++ dumpsBytes commitment ++
    strBytes (toString securityLevel) ++ nonce)

/-- Byte string hashed by the ultra signer, kept separate so facts about the
hash input itself can be stated. -/
def signUltraInput (proof commitment : Fields) (securityLevel : Int) (nonce : List Nat) :
    List Nat :=
  dumpsBytes proof ++ dumpsBytes commitment ++ strBytes (toString securityLevel) ++ nonce

/-- Embeds `UltraSecureBytesQZKP._sign_bytes_proof` (lines 254-261): the hash
additionally absorbs `sha256(data_bytes).digest()` and a fresh
`os.urandom(32)` draw, passed here explicitly as `nonce`. -/
def signBytes (proof commitment : Fields) (dataBytes nonce : List Nat) : String :=
  sha256hex (dumpsBytes proof ++ dumpsBytes commitment ++ sha256bytes dataBytes ++ nonce)

/-! ## Verifiers (`verify_secure_proof`, `verify_ultra_secure_proof`) -/

/-- Embeds `SecureQuantumZKP.verify_secure_proof` (lines 249-280).  The
result carries the boolean outcome together with the commitment and proof
dict values as they stand after the call: the code pops `"signature"` only
from `proof.copy()`, so the caller's dicts are returned as received.  The
`.error` case is an exception (KeyError / AttributeError / TypeError on
malformed proofs) escaping the method. -/
def verifySecureRun (dims : Int) (commitment proof : Fields) :
    Except String (Bool × Fields × Fields) :=
  -- temp_proof = proof.copy(); signature = temp_proof.pop("signature")
  match proof.pop "signature" with
  | .error e => .error e
  | .ok (signature, tempProof) =>
    -- computed_signature = self._sign_secure_proof(temp_proof, commitment)
    -- if signature != computed_signature: return False
    if !(pyEq signature (.str (signSecure tempProof commitment))) then
      .ok (false, commitment, proof)
    else
    -- if proof["quantum_dimensions"] != self.dimensions: return False
    match proof.getItem "quantum_dimensions" with
    | .error e => .error e
    | .ok qd =>
      if !(pyEq qd (.int dims)) then .ok (false, commitment, proof)
      else
      -- if proof["entanglement_bound"] < 0 or proof["coherence_bound"] < 0: return False
      match proof.getItem "entanglement_bound" with
      | .error e => .error e
      | .ok eb =>
        match pyLtZero eb with
        | .error e => .error e
        | .ok true => .ok (false, commitment, proof)
        | .ok false =>
          match proof.getItem "coherence_bound" with
          | .error e => .error e
          | .ok cb =>
            match pyLtZero cb with
            | .error e => .error e
            | .ok true => .ok (false, commitment, proof)
            | .ok false =>
              -- exec_meta = proof["execution_metadata"]
              match proof.getItem "execution_metadata" with
              | .error e => .error e
              | .ok em =>
                match asDict em with
                | .error e => .error e
                | .ok emFields =>
                  -- if not exec_meta.get("job_id") or not exec_meta.get("backend")
                  if !(truthyOpt (emFields.lookup "job_id")) then .ok (false, commitment, proof)
                  else if !(truthyOpt (emFields.lookup "backend")) then
                    .ok (false, commitment, proof)
                  else .ok (true, commitment, proof)

/-- Embeds `UltraSecureQuantumZKP.verify_ultra_secure_proof` (lines 279-325).
The code never recomputes a signature: it pops `"signature"` from a copy with
default `""` and, per its own comment, "accept[s] the signature as valid if
it exists".  The success path prints `proof['security_level']` and
`proof['soundness_error']`, so acceptance also requires those keys. -/
def verifyUltraRun (secLevel : Int) (commitment proof : Fields) :
    Except String (Bool × Fields × Fields) :=
  -- temp_proof = proof.copy(); signature = temp_proof.pop("signature", "")
  -- if not signature: return False   (no signature recomputation happens)
  if !(truthy (proof.popD "signature" (.str "")).1) then .ok (false, commitment, proof)
  else
  -- if proof.get("security_level") != self.security_level: return False
  if !(pyEqOpt (proof.lookup "security_level") (.int secLevel)) then
    .ok (false, commitment, proof)
  else
  -- security_guarantees = proof.get("security_guarantees", {})
  match asDict ((proof.lookup "security_guarantees").getD (.dict .nil)) with
  | .error e => .error e
  | .ok sgf =>
    -- if not all([...get("zero_knowledge"), ...]): return False
    if !(truthyOpt (sgf.lookup "zero_knowledge") &&
         truthyOpt (sgf.lookup "post_quantum_secure") &&
         truthyOpt (sgf.lookup "information_theoretic_security") &&
         truthyOpt (sgf.lookup "long_term_secure")) then
      .ok (false, commitment, proof)
    else
    -- if proof["entanglement_bound"] < 0 or proof["coherence_bound"] < 0: return False
    match proof.getItem "entanglement_bound" with
    | .error e => .error e
    | .ok eb =>
      match pyLtZero eb with
      | .error e => .error e
      | .ok true => .ok (false, commitment, proof)
      | .ok false =>
        match proof.getItem "coherence_bound" with
        | .error e => .error e
        | .ok cb =>
          match pyLtZero cb with
          | .error e => .error e
          | .ok true => .ok (false, commitment, proof)
          | .ok false =>
            match proof.getItem "execution_metadata" with
            | .error e => .error e
            | .ok em =>
              match asDict em with
              | .error e => .error e
              | .ok emFields =>
                if !(truthyOpt (emFields.lookup "job_id")) then .ok (false, commitment, proof)
                else if !(truthyOpt (emFields.lookup "backend")) then
                  .ok (false, commitment, proof)
                else
                  -- the success prints read proof['security_level'] and
                  -- proof['soundness_error'] (KeyError when absent)
                  match proof.getItem "security_level" with
                  | .error e => .error e
                  | .ok _ =>
                    match proof.getItem "soundness_error" with
                    | .error e => .error e
                    | .ok _ => .ok (true, commitment, proof)

/-! ## Measurement-count extraction (`execute_on_real_hardware`, the
try/except around `pub_result`) -/

/-- Model of the sampler pub-result data object the extraction inspects: it
has a `meas` attribute with counts, or a `c` attribute with counts, or
neither but a working `get_bitstrings()`, or the accesses raise. -/
inductive PubResultData where
  | meas : List (String × Nat) → PubResultData
  | c : List (String × Nat) → PubResultData
  | bitstrings : List String → PubResultData
  | raises : String → PubResultData
deriving DecidableEq

/-- One step of the bitstring tally loop: `counts[bitstring] += 1` with
insertion on first sight. -/
def bumpCount (l : List (String × Nat)) (k : String) : List (String × Nat) :=
  match l with
  | [] => [(k, 1)]
  | (k', n) :: rest => if k' = k then (k', n + 1) :: rest else (k', n) :: bumpCount rest k

/-- The `counts` dict built from a bitstring list by the fallback loop. -/
def tally (bs : List String) : List (String × Nat) := bs.foldl bumpCount []

/-- Embeds the count extraction of `SecureQuantumZKP.execute_on_real_hardware`
(lines 143-161): attribute fallbacks, and on any exception the hard-coded
synthetic counts.  The function is total: no input produces an error. -/
def extractCountsSecure : PubResultData → List (String × Nat)
  | .meas cs => cs
  | .c cs => cs
  | .bitstrings bs => tally bs
  | .raises _ => [("00", 450), ("11", 507), ("01", 28), ("10", 15)]

/-- Embeds the count extraction of
`UltraSecureQuantumZKP.execute_on_real_hardware` (lines 156-174), whose
exception handler substitutes its own hard-coded synthetic counts. -/
def extractCountsUltra : PubResultData → List (String × Nat)
  | .meas cs => cs
  | .c cs => cs
  | .bitstrings bs => tally bs
  | .raises _ => [("00", 485), ("11", 492), ("01", 12), ("10", 11)]

/-- Embeds the count extraction of
`UltraSecureBytesQZKP._execute_on_real_hardware` (lines 213-228). -/
def extractCountsBytes : PubResultData → List (String × Nat)
  | .meas cs => cs
  | .c cs => cs
  | .bitstrings bs => tally bs
  | .raises _ => [("00", 250), ("01", 250), ("10", 250), ("11", 250)]

/-! ## Commitment hashes of the state-vector classes -/

/-- Python string slice `s[:n]`. -/
def strTake (s : String) (n : Nat) : String := String.mk (s.data.take n)

/-- Embeds `SecureQuantumStateVector._generate_secure_commitment` (lines
59-65): sha256 over `str(self.dimension)` and a 32-byte `os.urandom` nonce
(passed explicitly), with the hexdigest truncated to its first 16
characters. -/
def secureCommitmentHash (dimension : Nat) (nonce : List Nat) : String :=
  strTake (sha256hex (strBytes (toString dimension) ++ nonce)) 16

/-- Embeds `UltraSecureQuantumStateVector._generate_ultra_secure_commitment`
(lines 59-66): sha256 over `str(self.dimension)`, a 64-byte nonce and
`str(time.time_ns())`, with the hexdigest truncated to its first 32
characters (the line the code comments "256-bit commitment hash"). -/
def ultraCommitmentHash (dimension : Nat) (nonce : List Nat) (timeNs : Nat) : String :=
  strTake (sha256hex (strBytes (toString dimension) ++ nonce ++ strBytes (toString timeNs))) 32

/-! ## Bound calculation and state-vector construction -/

/-- Embeds `_calculate_entanglement_bound` (lines 46-52 of both state-vector
classes): `num_qubits = int(np.log2(dimension))` — `Nat.log2`, which agrees
with the float computation exactly on the power-of-two dimensions the
protocol uses — then 0 below two qubits, else `num_qubits - 1` as a float. -/
def entanglementBound (dimension : Nat) : ℚ :=
  let numQubits := Nat.log2 dimension
  if numQubits < 2 then 0 else (numQubits : ℚ) - 1

/-- Embeds `_calculate_coherence_bound` (lines 54-57): `float(self.dimension)`. -/
def coherenceBound (dimension : Nat) : ℚ := (dimension : ℚ)

/-- Record built by `SecureQuantumStateVector.__init__` (lines 31-44).  The
stored `self.coordinates` equals the input divided by its real L2 norm;
`coordinatesR` below produces that real vector from `inputVector`, which is
kept in exact rational form so the record stays computable. -/
structure StateRecord where
  inputVector : List (ℚ × ℚ)
  dimension : Nat
  entanglement_bound : ℚ
  coherence_bound : ℚ
deriving DecidableEq

/-- Embeds `SecureQuantumStateVector.__init__` (lines 31-44) and equally
`UltraSecureQuantumStateVector.__init__`: the only rejection is the length
check `len(state_vector) == 0`; the norm is never inspected.  The commitment
nonce stage is modelled separately (`secureCommitmentHash`). -/
def secureStateInit (v : List (ℚ × ℚ)) : Except String StateRecord :=
  if v.length = 0 then .error "State vector must not be empty."
  else .ok { inputVector := v, dimension := v.length,
             entanglement_bound := entanglementBound v.length,
             coherence_bound := coherenceBound v.length }

/-! ## Real-valued normalization (`state_vector / np.linalg.norm(...)`) -/

/-- Squared L2 norm of a complex vector given as (re, im) rational pairs. -/
def norm2SqQ (v : List (ℚ × ℚ)) : ℚ := (v.map fun p => p.1 ^ 2 + p.2 ^ 2).sum

/-- Real L2 norm, `np.linalg.norm`. -/
noncomputable def normR (v : List (ℚ × ℚ)) : ℝ := Real.sqrt ((norm2SqQ v : ℝ))

/-- The stored normalized coordinates: each component divided by the norm. -/
noncomputable def coordinatesR (v : List (ℚ × ℚ)) : List (ℝ × ℝ) :=
  v.map fun p => ((p.1 : ℝ) / normR v, (p.2 : ℝ) / normR v)

/-- Squared L2 norm of a real vector. -/
noncomputable def norm2SqR (w : List (ℝ × ℝ)) : ℝ := (w.map fun p => p.1 ^ 2 + p.2 ^ 2).sum

/-! ## Bytes-to-state encoder (`BytesToQuantumStateConverter`) -/

/-- Embeds the amplitude loop of `bytes_to_quantum_state` (lines 45-53): the
indices `i = 0, 2, ...` below `min(len(hash_bytes), 2 * dim)`; a full pair
maps affinely into `[-1, 1] + i[-1, 1]`, a dangling last byte (impossible for
a 32-byte digest) maps onto `[0, 1]`. -/
def pairAmplitudes (hashBytes : List Nat) (dim : Nat) : List (ℚ × ℚ) :=
  (List.range ((min hashBytes.length (2 * dim) + 1) / 2)).map fun j =>
    if 2 * j + 1 < hashBytes.length then
      (((hashBytes.getD (2 * j) 0 : ℚ) - 128) / 128,
       ((hashBytes.getD (2 * j + 1) 0 : ℚ) - 128) / 128)
    else ((hashBytes.getD (2 * j) 0 : ℚ) / 255, 0)

/-- Embeds the pad/truncate step (lines 56-58): zero amplitudes appended
while the list is shorter than `dim`, then `[:dim]`. -/
def padTruncate (l : List (ℚ × ℚ)) (dim : Nat) : List (ℚ × ℚ) :=
  (l ++ List.replicate (dim - l.length) (0, 0)).take dim

/-- Embeds `bytes_to_quantum_state` (lines 35-78) up to, and not including,
the final normalization: the pre-normalization amplitude sequence derived
from the SHA-256 digest of the secret bytes. -/
def bytesToAmplitudes (dataBytes : List Nat) (dim : Nat) : List (ℚ × ℚ) :=
  padTruncate (pairAmplitudes (sha256bytes dataBytes) dim) dim

/-! ## Measurement-statistics analysis (`_secure_measurement_analysis`) -/

/-- The record `_secure_measurement_analysis` returns: aggregate statistics
only. -/
structure MeasurementStats where
  total_measurements : Nat
  unique_outcomes : Nat
  entropy_bound : ℝ
  distribution_type : String

/-- Embeds `SecureQuantumZKP._secure_measurement_analysis` (lines 229-240):
`sum(counts.values())`, `len(counts)`, `np.log2(len(counts))` and a constant
tag; no raw count and no outcome string is carried over. -/
noncomputable def secureMeasurementAnalysis (counts : List (String × Nat)) : MeasurementStats :=
  { total_measurements := (counts.map Prod.snd).sum
  , unique_outcomes := counts.length
  , entropy_bound := Real.logb 2 (counts.length : ℝ)
  , distribution_type := "quantum_measurement" }

/-- The record `_ultra_secure_measurement_analysis` (lines 256-268) returns:
the same aggregates plus the configured security level. -/
structure UltraMeasurementStats where
  total_measurements : Nat
  unique_outcomes : Nat
  entropy_bound : ℝ
  distribution_type : String
  security_level : Int

/-- Embeds `UltraSecureQuantumZKP._ultra_secure_measurement_analysis` (lines
256-268). -/
noncomputable def ultraMeasurementAnalysis (secLevel : Int) (counts : List (String × Nat)) :
    UltraMeasurementStats :=
  { total_measurements := (counts.map Prod.snd).sum
  , unique_outcomes := counts.length
  , entropy_bound := Real.logb 2 (counts.length : ℝ)
  , distribution_type := "ultra_secure_quantum_measurement"
  , security_level := secLevel }

/-! ## Concrete records used as inputs of the claim-level facts -/

/-- A 32-byte all-zero `os.urandom` draw. -/
def zeros32 : List Nat := List.replicate 32 0

/-- A 64-byte all-zero `os.urandom` draw. -/
def zeros64 : List Nat := List.replicate 64 0

/-- A 32-byte `os.urandom` draw distinct from `zeros32`. -/
def bytes0to31 : List Nat := List.range 32

/-- Execution metadata holding a nonempty job id and backend name. -/
def emOk : Fields :=
  .cons "job_id" (.str "j1") (.cons "backend" (.str "b") .nil)

/-- Execution metadata as above but with the job id flipped. -/
def emFlipped : Fields :=
  .cons "job_id" (.str "j2") (.cons "backend" (.str "b") .nil)

/-- The four `security_guarantees` flags the ultra verifier demands. -/
def sgAll : Fields :=
  .cons "zero_knowledge" (.bool true)
    (.cons "post_quantum_secure" (.bool true)
      (.cons "information_theoretic_security" (.bool true)
        (.cons "long_term_secure" (.bool true) .nil)))

/-- A small commitment record. -/
def cSmall : Fields := .cons "hash" (.str "abc123") (.cons "dimension" (.int 4) .nil)

/-- A secure-variant proof body (signature not yet attached), dimension 4. -/
def pBase : Fields :=
  .cons "quantum_dimensions" (.int 4)
    (.cons "security_level" (.int 128)
      (.cons "entanglement_bound" (.float 1)
        (.cons "coherence_bound" (.float 4)
          (.cons "execution_metadata" (.dict emOk) .nil))))

/-- The proof body correctly signed by `_sign_secure_proof`. -/
def pSigned : Fields := pBase.append "signature" (.str (signSecure pBase cSmall))

/-- The signed proof with `execution_metadata.job_id` flipped afterwards (the
signature still being the one computed over `pBase`). -/
def pFlipped : Fields :=
  (.cons "quantum_dimensions" (.int 4)
    (.cons "security_level" (.int 128)
      (.cons "entanglement_bound" (.float 1)
        (.cons "coherence_bound" (.float 4)
          (.cons "execution_metadata" (.dict emFlipped)
            (.cons "signature" (.str (signSecure pBase cSmall)) .nil)))))
   : Fields)

/-- The proof body `pBase` carrying a wrong signature string. -/
def pWrongSig : Fields := pBase.append "signature" (.str "00")

/-- A secure-variant proof body whose `security_level` (7) differs from the
verifier construction default 128; every field the verifier checks is fine. -/
def pOddLevel : Fields :=
  .cons "quantum_dimensions" (.int 4)
    (.cons "security_level" (.int 7)
      (.cons "entanglement_bound" (.float 1)
        (.cons "coherence_bound" (.float 4)
          (.cons "execution_metadata" (.dict emOk) .nil))))

/-- `pOddLevel` correctly signed. -/
def pOddLevelSigned : Fields :=
  pOddLevel.append "signature" (.str (signSecure pOddLevel cSmall))

/-- A signed proof whose entanglement bound is negative. -/
def pNegBound : Fields :=
  .cons "quantum_dimensions" (.int 4)
    (.cons "security_level" (.int 128)
      (.cons "entanglement_bound" (.float (-1))
        (.cons "coherence_bound" (.float 4)
          (.cons "execution_metadata" (.dict emOk) .nil))))

/-- `pNegBound` correctly signed. -/
def pNegBoundSigned : Fields :=
  pNegBound.append "signature" (.str (signSecure pNegBound cSmall))

/-- A signed proof whose execution metadata has an empty job id. -/
def pNoJob : Fields :=
  .cons "quantum_dimensions" (.int 4)
    (.cons "security_level" (.int 128)
      (.cons "entanglement_bound" (.float 1)
        (.cons "coherence_bound" (.float 4)
          (.cons "execution_metadata" (.dict (.cons "job_id" (.str "")
            (.cons "backend" (.str "b") .nil))) .nil))))

/-- `pNoJob` correctly signed. -/
def pNoJobSigned : Fields := pNoJob.append "signature" (.str (signSecure pNoJob cSmall))

/-- A proof body whose coherence bound is negative while the entanglement
bound is fine. -/
def pNegCoherence : Fields :=
  .cons "quantum_dimensions" (.int 4)
    (.cons "security_level" (.int 128)
      (.cons "entanglement_bound" (.float 1)
        (.cons "coherence_bound" (.float (-2))
          (.cons "execution_metadata" (.dict emOk) .nil))))

/-- A proof body whose execution metadata has a job id but an empty backend. -/
def pNoBackend : Fields :=
  .cons "quantum_dimensions" (.int 4)
    (.cons "security_level" (.int 128)
      (.cons "entanglement_bound" (.float 1)
        (.cons "coherence_bound" (.float 4)
          (.cons "execution_metadata" (.dict (.cons "job_id" (.str "j1")
            (.cons "backend" (.str "") .nil))) .nil))))

/-- An ultra-variant proof carrying an arbitrary signature string unrelated
to its content. -/
def ultraProofA : Fields :=
  .cons "security_level" (.int 256)
    (.cons "soundness_error" (.str "2^-256")
      (.cons "entanglement_bound" (.float 1)
        (.cons "coherence_bound" (.float 4)
          (.cons "execution_metadata" (.dict emOk)
            (.cons "security_guarantees" (.dict sgAll)
              (.cons "signature" (.str "deadbeef") .nil))))))

/-- `ultraProofA` with its `entanglement_bound` flipped to 999 and the
signature left unchanged. -/
def ultraProofB : Fields :=
  .cons "security_level" (.int 256)
    (.cons "soundness_error" (.str "2^-256")
      (.cons "entanglement_bound" (.float 999)
        (.cons "coherence_bound" (.float 4)
          (.cons "execution_metadata" (.dict emOk)
            (.cons "security_guarantees" (.dict sgAll)
              (.cons "signature" (.str "deadbeef") .nil))))))

/-- State-encoder input: the zero vector of length 4 (norm exactly zero). -/
def zeroVec4 : List (ℚ × ℚ) := [(0, 0), (0, 0), (0, 0), (0, 0)]

/-- State-encoder input: a unit vector of length 4. -/
def c6v : List (ℚ × ℚ) := [(1, 0), (0, 0), (0, 0), (0, 0)]

/-- State-encoder input with the same length as `c6v` but different
coordinates. -/
def c6w : List (ℚ × ℚ) := [(0, 1), (1, 0), (0, 0), (0, 0)]

/-- The record `secureStateInit` builds from `c6v`. -/
def c6rv : StateRecord :=
  { inputVector := c6v, dimension := 4,
    entanglement_bound := entanglementBound 4, coherence_bound := coherenceBound 4 }

/-- The record `secureStateInit` builds from `c6w`. -/
def c6rw : StateRecord :=
  { inputVector := c6w, dimension := 4,
    entanglement_bound := entanglementBound 4, coherence_bound := coherenceBound 4 }

/-! ## Helper lemmas on dicts -/

/-- Looking up a freshly appended key finds the appended value. -/
theorem Fields.lookup_append (k : String) (v : Val) :
    ∀ fs : Fields, fs.lookup k = none → (fs.append k v).lookup k = some v
  | .nil, _ => by simp [Fields.append, Fields.lookup]
  | .cons k' v' rest, h => by
    by_cases hk : k' = k
    · simp [Fields.lookup, hk] at h
    · simp only [Fields.lookup, hk, if_false] at h
      simpa [Fields.append, Fields.lookup, hk] using Fields.lookup_append k v rest h

/-- Erasing a freshly appended key restores the dict. -/
theorem Fields.erase_append (k : String) (v : Val) :
    ∀ fs : Fields, fs.lookup k = none → (fs.append k v).erase k = fs
  | .nil, _ => by simp [Fields.append, Fields.erase]
  | .cons k' v' rest, h => by
    by_cases hk : k' = k
    · simp [Fields.lookup, hk] at h
    · simp only [Fields.lookup, hk, if_false] at h
      simpa [Fields.append, Fields.erase, hk] using Fields.erase_append k v rest h

/-- Popping a freshly appended key yields the value and the original dict:
attaching a signature and popping it back round-trips. -/
theorem Fields.pop_append (fs : Fields) (k : String) (v : Val)
    (h : fs.lookup k = none) : (fs.append k v).pop k = .ok (v, fs) := by
  simp [Fields.pop, Fields.lookup_append k v fs h, Fields.erase_append k v fs h]

/-- The base-two logarithm of the scenario dimension. -/
theorem log2_four : Nat.log2 4 = 2 := by
  rw [show (4 : Nat) = 2 ^ 2 by norm_num, Nat.log2_eq_log_two]
  exact Nat.log_pow (by norm_num) 2

/-- The entanglement bound evaluates to 1 at dimension 4. -/
theorem entanglementBound_four : entanglementBound 4 = 1 := by
  unfold entanglementBound
  rw [log2_four]
  norm_num

/-- Appending a fresh key leaves the other lookups unchanged. -/
theorem Fields.lookup_append_ne (k k' : String) (v : Val) (hne : k' ≠ k) :
    ∀ fs : Fields, (fs.append k v).lookup k' = fs.lookup k'
  | .nil => by simp [Fields.append, Fields.lookup, hne.symm]
  | .cons k'' v'' rest => by
    by_cases hk : k'' = k'
    · simp [Fields.append, Fields.lookup, hk]
    · simpa [Fields.append, Fields.lookup, hk] using Fields.lookup_append_ne k k' v hne rest

/-- Python equality is reflexive on the modelled values. -/
theorem pyEq_refl (v : Val) : pyEq v v = true := by
  unfold pyEq
  split <;> simp_all

/-! ## C3: extraction failure is papered over with synthetic counts -/

/-- C3 (code bug): when count extraction from the execution result raises,
all three implementations substitute hard-coded synthetic counts and
continue; none of them aborts — each extractor is a total function whose
exception branch returns fabricated counts, so a proof is then assembled and
signed over them. -/
theorem extraction_failure_synthesizes_counts :
    extractCountsSecure (.raises "no counts attribute") =
      [("00", 450), ("11", 507), ("01", 28), ("10", 15)] ∧
    extractCountsUltra (.raises "no counts attribute") =
      [("00", 485), ("11", 492), ("01", 12), ("10", 11)] ∧
    extractCountsBytes (.raises "no counts attribute") =
      [("00", 250), ("01", 250), ("10", 250), ("11", 250)] :=
  ⟨rfl, rfl, rfl⟩

/-! ## C4: commitment hashes are truncated below the declared strength -/

set_option maxRecDepth 100000 in
/-- C4 (code bug): at the 128-bit security level the state commitment hash
keeps 16 hex characters (64 bits < 128), and at the 256-bit level it keeps 32
hex characters (128 bits < 256) — both below the declared strength, although
the 256-bit code comments the truncation "256-bit commitment hash". -/
theorem commitment_hash_truncated_below_declared_strength :
    (secureCommitmentHash 4 zeros32).length = 16 ∧ 16 * 4 < 128 ∧
    (ultraCommitmentHash 4 zeros64 0).length = 32 ∧ 32 * 4 < 256 := by
  refine ⟨by rfl, by norm_num, by rfl, by norm_num⟩

/-! ## C6: bounds are the claimed functions of the dimension alone -/

/-- C6: for a power-of-two dimension `2 ^ k` the bound calculation returns
`entanglement_bound = max 0 (log2 dimension - 1)` and
`coherence_bound = dimension`, and two state records of equal dimension and
arbitrary coordinates carry bit-identical bounds. -/
theorem bounds_of_power_of_two (k : Nat) (v w : List (ℚ × ℚ)) (rv rw : StateRecord)
    (hlen : v.length = w.length)
    (hv : secureStateInit v = .ok rv) (hw : secureStateInit w = .ok rw) :
    entanglementBound (2 ^ k) = max 0 ((k : ℚ) - 1) ∧
    coherenceBound (2 ^ k) = ((2 ^ k : Nat) : ℚ) ∧
    rv.entanglement_bound = rw.entanglement_bound ∧
    rv.coherence_bound = rw.coherence_bound := by
  have hlog : Nat.log2 (2 ^ k) = k := by
    rw [Nat.log2_eq_log_two]
    exact Nat.log_pow (by norm_num) k
  have hrv : rv.entanglement_bound = entanglementBound v.length ∧
      rv.coherence_bound = coherenceBound v.length := by
    unfold secureStateInit at hv
    split at hv
    · exact absurd hv (by simp)
    · cases hv
      exact ⟨rfl, rfl⟩
  have hrw : rw.entanglement_bound = entanglementBound w.length ∧
      rw.coherence_bound = coherenceBound w.length := by
    unfold secureStateInit at hw
    split at hw
    · exact absurd hw (by simp)
    · cases hw
      exact ⟨rfl, rfl⟩
  refine ⟨?_, rfl, ?_, ?_⟩
  · unfold entanglementBound
    rw [hlog]
    by_cases hk : k < 2
    · interval_cases k <;> norm_num
    · have h2 : 2 ≤ k := Nat.le_of_not_lt hk
      have hq : (0 : ℚ) ≤ (k : ℚ) - 1 := by
        have : (2 : ℚ) ≤ (k : ℚ) := by exact_mod_cast h2
        linarith
      rw [if_neg hk, max_eq_right hq]
  · rw [hrv.1, hrw.1, hlen]
  · rw [hrv.2, hrw.2, hlen]

/-- Witness for C6 at the end-to-end scenario dimension 4 with two distinct
coordinate vectors of that dimension; the bounds evaluate to 1 and 4. -/
theorem bounds_of_power_of_two_witness :
    (entanglementBound (2 ^ 2) = max 0 ((2 : ℚ) - 1) ∧
     coherenceBound (2 ^ 2) = ((2 ^ 2 : Nat) : ℚ) ∧
     c6rv.entanglement_bound = c6rw.entanglement_bound ∧
     c6rv.coherence_bound = c6rw.coherence_bound) ∧
    c6v ≠ c6w ∧ entanglementBound 4 = 1 ∧ coherenceBound 4 = 4 :=
  ⟨bounds_of_power_of_two 2 c6v c6w c6rv c6rw rfl rfl rfl,
   by norm_num [c6v, c6w], entanglementBound_four, rfl⟩

/-! ## C9: measurement statistics carry only aggregates -/

/-- C9: the measurement-statistics record assembled into the proof holds
exactly the total count, the number of distinct outcomes, the entropy upper
bound `log2 (number of distinct outcomes)` and a constant tag; it is a
function of those aggregates alone, so two counts dicts with equal total and
equal outcome cardinality produce identical records — no raw per-outcome
count and no outcome string survives into it. -/
theorem measurement_stats_aggregate (counts c1 c2 : List (String × Nat)) (secLevel : Int)
    (hsum : (c1.map Prod.snd).sum = (c2.map Prod.snd).sum)
    (hlen : c1.length = c2.length) :
    (secureMeasurementAnalysis counts).total_measurements = (counts.map Prod.snd).sum ∧
    (secureMeasurementAnalysis counts).unique_outcomes = counts.length ∧
    (secureMeasurementAnalysis counts).entropy_bound = Real.logb 2 (counts.length : ℝ) ∧
    secureMeasurementAnalysis c1 = secureMeasurementAnalysis c2 ∧
    ultraMeasurementAnalysis secLevel c1 = ultraMeasurementAnalysis secLevel c2 := by
  refine ⟨rfl, rfl, rfl, ?_, ?_⟩ <;>
    simp [secureMeasurementAnalysis, ultraMeasurementAnalysis, hsum, hlen]

/-- Witness for C9: two different counts dicts with equal aggregates (total
8, two outcomes) receive identical statistics records. -/
theorem measurement_stats_aggregate_witness :
    (secureMeasurementAnalysis [("00", 450)]).total_measurements =
      ([("00", 450)].map Prod.snd).sum ∧
    (secureMeasurementAnalysis [("00", 450)]).unique_outcomes = [("00", 450)].length ∧
    (secureMeasurementAnalysis [("00", 450)]).entropy_bound =
      Real.logb 2 (([("00", 450)].length : Nat) : ℝ) ∧
    secureMeasurementAnalysis [("00", 3), ("11", 5)] =
      secureMeasurementAnalysis [("01", 4), ("10", 4)] ∧
    ultraMeasurementAnalysis 256 [("00", 3), ("11", 5)] =
      ultraMeasurementAnalysis 256 [("01", 4), ("10", 4)] :=
  measurement_stats_aggregate [("00", 450)] [("00", 3), ("11", 5)] [("01", 4), ("10", 4)]
    256 (by decide) (by decide)

/-! ## C10: verification does not mutate its inputs -/

/-- C10: whether it accepts or rejects, each verifier returns the commitment
and proof dicts exactly as received (the `"signature"` pop acts only on
`proof.copy()`), so the caller's mappings — the signature field included —
are unchanged by the call. -/
theorem verify_preserves_inputs (dims secLevel : Int) (c p : Fields)
    (b : Bool) (c' p' : Fields) :
    (verifySecureRun dims c p = .ok (b, c', p') → c' = c ∧ p' = p) ∧
    (verifyUltraRun secLevel c p = .ok (b, c', p') → c' = c ∧ p' = p) := by
  constructor
  · intro h
    unfold verifySecureRun at h
    repeat' split at h
    all_goals simp_all
  · intro h
    unfold verifyUltraRun at h
    repeat' split at h
    all_goals simp_all

set_option maxRecDepth 1000000 in
/-- Witness for C10: a concrete rejecting secure run (wrong signature) and a
concrete accepting ultra run, both returning their input dicts unchanged. -/
theorem verify_preserves_inputs_witness :
    (cSmall = cSmall ∧ pWrongSig = pWrongSig) ∧
    (Fields.nil = Fields.nil ∧ ultraProofA = ultraProofA) :=
  ⟨(verify_preserves_inputs 4 256 cSmall pWrongSig false cSmall pWrongSig).1 (by rfl),
   (verify_preserves_inputs 4 256 Fields.nil ultraProofA true Fields.nil ultraProofA).2
     (by rfl)⟩

/-! ## C1: signature verification -/

set_option maxRecDepth 1000000 in
/-- C1 (code bug): the ultra verifier accepts `ultraProofA`, whose signature
string "deadbeef" was never computed from any proof content, and equally
accepts `ultraProofB`, which differs from it in `entanglement_bound` under
the same signature — flipping a field does not trigger any signature
rejection there, because that verifier never recomputes the signature (its
own comment: "we'll accept the signature as valid if it exists").  The
secure-variant verifier, by contrast, behaves as the claim says: it accepts
the correctly signed `pSigned` and rejects `pFlipped`, the same signed proof
with `execution_metadata.job_id` flipped. -/
theorem ultra_verifier_never_recomputes_signature :
    verifyUltraRun 256 Fields.nil ultraProofA = .ok (true, Fields.nil, ultraProofA) ∧
    verifyUltraRun 256 Fields.nil ultraProofB = .ok (true, Fields.nil, ultraProofB) ∧
    ultraProofA ≠ ultraProofB ∧
    verifySecureRun 4 cSmall pSigned = .ok (true, cSmall, pSigned) ∧
    verifySecureRun 4 cSmall pFlipped = .ok (false, cSmall, pFlipped) :=
  ⟨by rfl, by rfl, by decide, by rfl, by rfl⟩

/-! ## C5: verification rejection outcomes -/

set_option maxRecDepth 1000000 in
/-- C5 is false as stated: the secure verifier performs no security-level
check at all — it accepts this correctly signed proof whose `security_level`
field is 7 while the verifier was built with 128 — so no
`SecurityLevelMismatch` rejection exists in it. -/
theorem secure_verifier_has_no_security_level_check :
    pOddLevel.lookup "security_level" = some (.int 7) ∧ (7 : Int) ≠ 128 ∧
    verifySecureRun 4 cSmall pOddLevelSigned = .ok (true, cSmall, pOddLevelSigned) :=
  ⟨rfl, by decide, by rfl⟩

/-- C5 (amended): every rejection is returned as the one undifferentiated
boolean `false` (reasons are only printed): under a correct signature and
matching dimension, a proof with a negative entanglement bound is rejected as
`.ok (false, commitment, proof)`, a proof with an empty (or absent) job id is
rejected as the bit-identical kind of outcome, a proof with a negative
coherence bound is rejected likewise, a proof with an absent or empty backend
is rejected likewise, and the ultra verifier — the only one checking the
security level — also rejects a mismatched level as the same bare `false`. -/
theorem verifier_rejections_bare_false
    (dims lvl secLevel : Int) (c p p2 p3 p4 pu : Fields)
    (q q2 q3 q4 q5 q6 q7 : ℚ) (emf emf2 : Fields) (s : String)
    (hsig : p.lookup "signature" = none)
    (hqd : p.lookup "quantum_dimensions" = some (.int dims))
    (heb : p.lookup "entanglement_bound" = some (.float q))
    (hq : q < 0)
    (h2sig : p2.lookup "signature" = none)
    (h2qd : p2.lookup "quantum_dimensions" = some (.int dims))
    (h2eb : p2.lookup "entanglement_bound" = some (.float q2)) (hq2 : ¬ q2 < 0)
    (h2cb : p2.lookup "coherence_bound" = some (.float q3)) (hq3 : ¬ q3 < 0)
    (h2em : p2.lookup "execution_metadata" = some (.dict emf))
    (hjob : truthyOpt (emf.lookup "job_id") = false)
    (h3sig : p3.lookup "signature" = none)
    (h3qd : p3.lookup "quantum_dimensions" = some (.int dims))
    (h3eb : p3.lookup "entanglement_bound" = some (.float q4)) (hq4 : ¬ q4 < 0)
    (h3cb : p3.lookup "coherence_bound" = some (.float q5)) (hq5 : q5 < 0)
    (h4sig : p4.lookup "signature" = none)
    (h4qd : p4.lookup "quantum_dimensions" = some (.int dims))
    (h4eb : p4.lookup "entanglement_bound" = some (.float q6)) (hq6 : ¬ q6 < 0)
    (h4cb : p4.lookup "coherence_bound" = some (.float q7)) (hq7 : ¬ q7 < 0)
    (h4em : p4.lookup "execution_metadata" = some (.dict emf2))
    (hjob2 : truthyOpt (emf2.lookup "job_id") = true)
    (hback : truthyOpt (emf2.lookup "backend") = false)
    (husig : pu.lookup "signature" = some (.str s)) (hs : s ≠ "")
    (hulvl : pu.lookup "security_level" = some (.int lvl)) (hne : lvl ≠ secLevel) :
    verifySecureRun dims c (p.append "signature" (.str (signSecure p c))) =
      .ok (false, c, p.append "signature" (.str (signSecure p c))) ∧
    verifySecureRun dims c (p2.append "signature" (.str (signSecure p2 c))) =
      .ok (false, c, p2.append "signature" (.str (signSecure p2 c))) ∧
    verifySecureRun dims c (p3.append "signature" (.str (signSecure p3 c))) =
      .ok (false, c, p3.append "signature" (.str (signSecure p3 c))) ∧
    verifySecureRun dims c (p4.append "signature" (.str (signSecure p4 c))) =
      .ok (false, c, p4.append "signature" (.str (signSecure p4 c))) ∧
    verifyUltraRun secLevel c pu = .ok (false, c, pu) := by
  have hqd' := Fields.lookup_append_ne "signature" "quantum_dimensions"
    (.str (signSecure p c)) (by decide) p
  have heb' := Fields.lookup_append_ne "signature" "entanglement_bound"
    (.str (signSecure p c)) (by decide) p
  have h2qd' := Fields.lookup_append_ne "signature" "quantum_dimensions"
    (.str (signSecure p2 c)) (by decide) p2
  have h2eb' := Fields.lookup_append_ne "signature" "entanglement_bound"
    (.str (signSecure p2 c)) (by decide) p2
  have h2cb' := Fields.lookup_append_ne "signature" "coherence_bound"
    (.str (signSecure p2 c)) (by decide) p2
  have h2em' := Fields.lookup_append_ne "signature" "execution_metadata"
    (.str (signSecure p2 c)) (by decide) p2
  have h3qd' := Fields.lookup_append_ne "signature" "quantum_dimensions"
    (.str (signSecure p3 c)) (by decide) p3
  have h3eb' := Fields.lookup_append_ne "signature" "entanglement_bound"
    (.str (signSecure p3 c)) (by decide) p3
  have h3cb' := Fields.lookup_append_ne "signature" "coherence_bound"
    (.str (signSecure p3 c)) (by decide) p3
  have h4qd' := Fields.lookup_append_ne "signature" "quantum_dimensions"
    (.str (signSecure p4 c)) (by decide) p4
  have h4eb' := Fields.lookup_append_ne "signature" "entanglement_bound"
    (.str (signSecure p4 c)) (by decide) p4
  have h4cb' := Fields.lookup_append_ne "signature" "coherence_bound"
    (.str (signSecure p4 c)) (by decide) p4
  have h4em' := Fields.lookup_append_ne "signature" "execution_metadata"
    (.str (signSecure p4 c)) (by decide) p4
  refine ⟨?_, ?_, ?_, ?_, ?_⟩
  · unfold verifySecureRun
    rw [Fields.pop_append p "signature" _ hsig]
    simp [Fields.getItem, hqd', heb', hqd, heb, pyEq_refl, pyLtZero, numVal, hq]
  · unfold verifySecureRun
    rw [Fields.pop_append p2 "signature" _ h2sig]
    simp [Fields.getItem, h2qd', h2eb', h2cb', h2em', h2qd, h2eb, h2cb, h2em,
      pyEq_refl, pyLtZero, numVal, hq2, hq3, asDict, hjob]
  · unfold verifySecureRun
    rw [Fields.pop_append p3 "signature" _ h3sig]
    simp [Fields.getItem, h3qd', h3eb', h3cb', h3qd, h3eb, h3cb,
      pyEq_refl, pyLtZero, numVal, hq4, hq5]
  · unfold verifySecureRun
    rw [Fields.pop_append p4 "signature" _ h4sig]
    simp [Fields.getItem, h4qd', h4eb', h4cb', h4em', h4qd, h4eb, h4cb, h4em,
      pyEq_refl, pyLtZero, numVal, hq6, hq7, asDict, hjob2, hback]
  · have hcast : ((lvl : ℚ)) ≠ ((secLevel : ℚ)) := by exact_mod_cast hne
    unfold verifyUltraRun
    simp [Fields.popD, husig, truthy, hs, pyEqOpt, pyEq, numVal, hulvl, hcast]

set_option maxRecDepth 1000000 in
/-- Witness for the amended C5 at concrete records: a negative entanglement
bound, an empty job id, a negative coherence bound, an empty backend, and an
ultra proof whose level 256 differs from a verifier minimum of 999. -/
theorem verifier_rejections_bare_false_witness :
    verifySecureRun 4 cSmall (pNegBound.append "signature"
        (.str (signSecure pNegBound cSmall))) =
      .ok (false, cSmall, pNegBound.append "signature"
        (.str (signSecure pNegBound cSmall))) ∧
    verifySecureRun 4 cSmall (pNoJob.append "signature"
        (.str (signSecure pNoJob cSmall))) =
      .ok (false, cSmall, pNoJob.append "signature" (.str (signSecure pNoJob cSmall))) ∧
    verifySecureRun 4 cSmall (pNegCoherence.append "signature"
        (.str (signSecure pNegCoherence cSmall))) =
      .ok (false, cSmall, pNegCoherence.append "signature"
        (.str (signSecure pNegCoherence cSmall))) ∧
    verifySecureRun 4 cSmall (pNoBackend.append "signature"
        (.str (signSecure pNoBackend cSmall))) =
      .ok (false, cSmall, pNoBackend.append "signature"
        (.str (signSecure pNoBackend cSmall))) ∧
    verifyUltraRun 999 cSmall ultraProofA = .ok (false, cSmall, ultraProofA) :=
  verifier_rejections_bare_false 4 256 999 cSmall
    pNegBound pNoJob pNegCoherence pNoBackend ultraProofA
    (-1) 1 4 1 (-2) 1 4
    (.cons "job_id" (.str "") (.cons "backend" (.str "b") .nil))
    (.cons "job_id" (.str "j1") (.cons "backend" (.str "") .nil)) "deadbeef"
    rfl rfl rfl (by norm_num)
    rfl rfl rfl (by norm_num) rfl (by norm_num) rfl rfl
    rfl rfl rfl (by norm_num) rfl (by norm_num)
    rfl rfl rfl (by norm_num) rfl (by norm_num) rfl rfl rfl
    rfl (by decide) rfl (by decide)

/-! ## C2: determinism of signing -/

set_option maxRecDepth 1000000 in
/-- C2 is false as stated for the ultra signer: with identical proof (`{}`)
and commitment (`{}`), two calls whose internal `os.urandom(32)` draws differ
— here the all-zero draw and the bytes 0..31 — produce different signatures,
so signer and verifier cannot agree byte-for-byte; the hash input moreover
absorbs `str(security_level)` and the random draw on top of the canonical
JSON the claimed formula prescribes. -/
theorem ultra_sign_nondeterministic :
    zeros32 ≠ bytes0to31 ∧
    signUltra Fields.nil Fields.nil 256 zeros32 ≠
      signUltra Fields.nil Fields.nil 256 bytes0to31 :=
  ⟨by decide, by decide⟩

/-- C2 (amended): the secure-variant signer is deterministic and is exactly
the claimed formula — the SHA-256 hexdigest of the canonical lexicographically
key-sorted JSON of the proof followed by that of the commitment — and signer
and verifier agree byte-for-byte: popping the signature off a signed proof
returns the stored signature together with the original body, whose
recomputed signature is that stored string.  The ultra and bytes signers
instead absorb a fresh random draw (and further fields), so the byte strings
they hash differ whenever the draws differ even for identical proof and
commitment. -/
theorem sign_secure_deterministic (p c : Fields) (n1 n2 nb : List Nat)
    (hsig : p.lookup "signature" = none) (hnond : n1 ≠ n2) (lvl : Int) :
    signSecure p c = sha256hex (dumpsBytes p ++ dumpsBytes c) ∧
    (p.append "signature" (.str (signSecure p c))).pop "signature" =
      .ok (.str (signSecure p c), p) ∧
    signUltraInput p c lvl n1 ≠ signUltraInput p c lvl n2 ∧
    (dumpsBytes p ++ dumpsBytes c ++ sha256bytes nb ++ n1) ≠
      (dumpsBytes p ++ dumpsBytes c ++ sha256bytes nb ++ n2) := by
  refine ⟨rfl, Fields.pop_append p "signature" _ hsig, ?_, ?_⟩
  · intro h
    exact hnond (List.append_cancel_left h)
  · intro h
    exact hnond (List.append_cancel_left h)

set_option maxRecDepth 1000000 in
/-- Witness for the amended C2 at a concrete proof body, commitment and pair
of distinct random draws. -/
theorem sign_secure_deterministic_witness :
    signSecure pBase cSmall = sha256hex (dumpsBytes pBase ++ dumpsBytes cSmall) ∧
    (pBase.append "signature" (.str (signSecure pBase cSmall))).pop "signature" =
      .ok (.str (signSecure pBase cSmall), pBase) :=
  ⟨(sign_secure_deterministic pBase cSmall zeros32 bytes0to31 zeros32 rfl (by decide) 256).1,
   (sign_secure_deterministic pBase cSmall zeros32 bytes0to31 zeros32 rfl
      (by decide) 256).2.1⟩

/-! ## C7: zero-norm handling of the state encoder -/

/-- The squared norm of a rational vector is nonnegative. -/
theorem norm2SqQ_nonneg : ∀ v : List (ℚ × ℚ), 0 ≤ norm2SqQ v
  | [] => le_refl 0
  | p :: rest => by
    have h := norm2SqQ_nonneg rest
    have h1 : (0 : ℚ) ≤ p.1 ^ 2 + p.2 ^ 2 := by positivity
    simp only [norm2SqQ, List.map_cons, List.sum_cons] at h ⊢
    linarith

/-- Dividing every component by `n` divides the squared norm by `n ^ 2`. -/
theorem norm2SqR_map_div (n : ℝ) : ∀ v : List (ℚ × ℚ),
    norm2SqR (v.map fun p => ((p.1 : ℝ) / n, (p.2 : ℝ) / n)) = (norm2SqQ v : ℝ) / n ^ 2
  | [] => by simp [norm2SqR, norm2SqQ]
  | p :: rest => by
    have ih := norm2SqR_map_div n rest
    simp only [norm2SqR, List.map_cons, List.sum_cons] at ih ⊢
    rw [ih]
    simp only [norm2SqQ, List.map_cons, List.sum_cons]
    rw [div_pow, div_pow, div_add_div_same, div_add_div_same]
    push_cast
    ring_nf

/-- C7 is false as stated: the nonempty all-zero vector has L2 norm exactly
zero, yet construction succeeds and returns a record — only emptiness is
checked (the numpy division by zero then yields non-finite coordinates
silently instead of an InvalidStateError). -/
theorem zero_norm_vector_not_rejected :
    norm2SqQ zeroVec4 = 0 ∧
    secureStateInit zeroVec4 = .ok (StateRecord.mk zeroVec4 4
      (entanglementBound 4) (coherenceBound 4)) := by
  constructor
  · norm_num [norm2SqQ, zeroVec4]
  · rfl

/-- C7 (amended): the encoder raises exactly on the empty input vector — the
only check is `len(state_vector) == 0`, so a nonempty zero-norm vector is not
rejected — and whenever the input norm is nonzero the stored normalized
coordinates have real L2 norm exactly 1. -/
theorem encoder_rejects_only_empty (v w : List (ℚ × ℚ)) (hw : norm2SqQ w ≠ 0) :
    (secureStateInit v = .error "State vector must not be empty." ↔ v = []) ∧
    Real.sqrt (norm2SqR (coordinatesR w)) = 1 := by
  constructor
  · unfold secureStateInit
    constructor
    · intro h
      by_cases hl : v.length = 0
      · exact List.length_eq_zero.mp hl
      · rw [if_neg hl] at h
        cases h
    · intro h
      subst h
      simp
  · have hS : (0 : ℝ) ≤ (norm2SqQ w : ℝ) := by exact_mod_cast norm2SqQ_nonneg w
    have hSne : ((norm2SqQ w : ℝ)) ≠ 0 := by exact_mod_cast hw
    unfold coordinatesR normR
    rw [norm2SqR_map_div]
    rw [Real.sq_sqrt hS, div_self hSne, Real.sqrt_one]

/-- Witness for the amended C7: the empty vector is the rejected one, and a
concrete unit-norm input is normalized to norm exactly 1. -/
theorem encoder_rejects_only_empty_witness :
    (secureStateInit ([] : List (ℚ × ℚ)) = .error "State vector must not be empty." ↔
      ([] : List (ℚ × ℚ)) = []) ∧
    Real.sqrt (norm2SqR (coordinatesR c6v)) = 1 :=
  encoder_rejects_only_empty [] c6v (by norm_num [norm2SqQ, c6v])

/-! ## C8: determinism and shape of the bytes-to-state encoding -/

/-- Every byte of the serialized digest is below 256. -/
theorem sha256bytes_lt (m : List Nat) : ∀ b ∈ sha256bytes m, b < 256 := by
  unfold sha256bytes
  generalize sha256words m = ws
  induction ws with
  | nil => intro b hb; simp at hb
  | cons w rest ih =>
    intro b hb
    simp only [List.foldr_cons] at hb
    rcases List.mem_append.mp hb with h | h
    · simp only [List.mem_map, List.mem_range] at h
      obtain ⟨i, _, rfl⟩ := h
      exact Nat.mod_lt _ (by norm_num)
    · exact ih b h

/-- Reading a byte list with default 0 stays below 256 when all entries do. -/
theorem getD_lt_256 : ∀ (l : List Nat), (∀ b ∈ l, b < 256) → ∀ i, l.getD i 0 < 256
  | [], _, i => by simp [List.getD]
  | b :: rest, hl, 0 => by simpa using hl b (by simp)
  | b :: rest, hl, i + 1 => by
    simpa using getD_lt_256 rest (fun x hx => hl x (by simp [hx])) i

/-- Every amplitude built from digest byte pairs lies in the square
`[-1, 1] + i[-1, 1]`. -/
theorem pairAmplitudes_mem_range (hashBytes : List Nat) (dim : Nat)
    (hb : ∀ b ∈ hashBytes, b < 256) :
    ∀ p ∈ pairAmplitudes hashBytes dim, -1 ≤ p.1 ∧ p.1 ≤ 1 ∧ -1 ≤ p.2 ∧ p.2 ≤ 1 := by
  intro p hp
  unfold pairAmplitudes at hp
  simp only [List.mem_map, List.mem_range] at hp
  obtain ⟨j, _, hpe⟩ := hp
  have hb1 : (hashBytes.getD (2 * j) 0 : ℚ) ≤ 255 := by
    exact_mod_cast Nat.lt_succ_iff.mp (getD_lt_256 hashBytes hb (2 * j))
  have hb1' : (0 : ℚ) ≤ (hashBytes.getD (2 * j) 0 : ℚ) := by positivity
  have hb2 : (hashBytes.getD (2 * j + 1) 0 : ℚ) ≤ 255 := by
    exact_mod_cast Nat.lt_succ_iff.mp (getD_lt_256 hashBytes hb (2 * j + 1))
  have hb2' : (0 : ℚ) ≤ (hashBytes.getD (2 * j + 1) 0 : ℚ) := by positivity
  by_cases hi : 2 * j + 1 < hashBytes.length
  · rw [if_pos hi] at hpe
    subst hpe
    refine ⟨?_, ?_, ?_, ?_⟩
    · rw [le_div_iff₀ (by norm_num : (0 : ℚ) < 128)]
      linarith
    · rw [div_le_one (by norm_num : (0 : ℚ) < 128)]
      linarith
    · rw [le_div_iff₀ (by norm_num : (0 : ℚ) < 128)]
      linarith
    · rw [div_le_one (by norm_num : (0 : ℚ) < 128)]
      linarith
  · rw [if_neg hi] at hpe
    subst hpe
    refine ⟨?_, ?_, by norm_num, by norm_num⟩
    · have : (0 : ℚ) ≤ (hashBytes.getD (2 * j) 0 : ℚ) / 255 := by positivity
      linarith
    · rw [div_le_one (by norm_num : (0 : ℚ) < 255)]
      linarith

/-- Padding with zero amplitudes and truncating yields exactly the target
dimension. -/
theorem padTruncate_length (l : List (ℚ × ℚ)) (dim : Nat) :
    (padTruncate l dim).length = dim := by
  simp only [padTruncate, List.length_take, List.length_append, List.length_replicate]
  omega

/-- C8: encoding is deterministic and has the described shape: for equal
secret byte strings and a common dimension, the two runs produce identical
pre-normalization amplitude sequences and identical normalized vectors; the
amplitude list (the SHA-256 digest consumed in byte pairs, padded or
truncated) has exactly the target dimension; and every amplitude lies in
`[-1, 1] + i[-1, 1]`. -/
theorem encoding_deterministic (s1 s2 : List Nat) (d : Nat) (h : s1 = s2) :
    bytesToAmplitudes s1 d = bytesToAmplitudes s2 d ∧
    coordinatesR (bytesToAmplitudes s1 d) = coordinatesR (bytesToAmplitudes s2 d) ∧
    (bytesToAmplitudes s1 d).length = d ∧
    ∀ p ∈ bytesToAmplitudes s1 d, -1 ≤ p.1 ∧ p.1 ≤ 1 ∧ -1 ≤ p.2 ∧ p.2 ≤ 1 := by
  subst h
  refine ⟨rfl, rfl, padTruncate_length _ _, ?_⟩
  intro p hp
  unfold bytesToAmplitudes padTruncate at hp
  have hp' := List.mem_of_mem_take hp
  rcases List.mem_append.mp hp' with h1 | h2
  · exact pairAmplitudes_mem_range _ _ (sha256bytes_lt _) p h1
  · have hz := List.eq_of_mem_replicate h2
    subst hz
    norm_num

/-- Witness for C8 at the spec's end-to-end secret and dimension 4: two runs
agree and the amplitude list has length 4. -/
theorem encoding_deterministic_witness :
    bytesToAmplitudes (strBytes "Hello Quantum World!") 4 =
      bytesToAmplitudes (strBytes "Hello Quantum World!") 4 ∧
    (bytesToAmplitudes (strBytes "Hello Quantum World!") 4).length = 4 :=
  ⟨(encoding_deterministic (strBytes "Hello Quantum World!")
      (strBytes "Hello Quantum World!") 4 rfl).1,
   (encoding_deterministic (strBytes "Hello Quantum World!")
      (strBytes "Hello Quantum World!") 4 rfl).2.2.1⟩

end QZKP
